import Mathlib

/-!
Verification of the connection handler and header codec of a minimal
Kafka-style broker (`src/main.rs`).

The byte stream of a connection is modelled as a `List Nat` of bytes
(each in `0..255`); `read_exact` on a `TcpStream` becomes `readExact`,
which consumes a fixed number of bytes from the front of the list and
fails when the stream cannot supply them (end-of-stream or I/O fault are
both modelled as the stream being unable to supply the bytes).
Machine integers are modelled as `Nat` (`u16`) and `Int` (`i32`, values
in the interval from `-2 ^ 31` to `2 ^ 31 - 1`), with big-endian byte
conversions written out explicitly, mirroring `u16::from_be_bytes`,
`i32::from_be_bytes` and `i32::to_be_bytes`.
-/

/-- Error type of the broker (`enum KafkaError`): the only variant wraps
an I/O error from reading the stream. -/
inductive KafkaError where
  | ReadError : KafkaError
deriving DecidableEq, Repr

/-- Kafka response message (`struct Response`). -/
structure Response where
  /-- Specifies size of header and body. -/
  message_size : Int
  /-- Helps clients match their original requests. -/
  correlation_id : Int
deriving DecidableEq, Repr

/-- Kafka request message (`struct Request`). -/
structure Request where
  /-- Specifies size of header and body (`i32`). -/
  message_size : Int
  /-- The API key for the request (`u16`). -/
  request_api_key : Nat
  /-- The version of the API for the request (`u16`). -/
  request_api_version : Nat
  /-- A unique identifier for the request (`i32`). -/
  correlation_id : Int
  /-- The client ID for the request; never populated by this implementation. -/
  client_id : Option String
  /-- Optional tagged fields, `#[builder(default)]`; never populated. -/
  tag_buffer : List String
deriving DecidableEq, Repr

/-- `stream.read_exact(&mut buf)` for a buffer of `n` bytes: returns the
`n` bytes read and the remaining stream, or fails when the stream holds
fewer than `n` bytes. -/
def readExact (n : Nat) (s : List Nat) : Option (List Nat × List Nat) :=
  if n ≤ s.length then some (s.take n, s.drop n) else none

/-- `u16::from_be_bytes` on a 2-byte buffer. -/
def u16FromBe (bs : List Nat) : Nat :=
  bs.getD 0 0 * 256 + bs.getD 1 0

/-- Big-endian value of a 4-byte buffer, as an unsigned number. -/
def u32FromBe (bs : List Nat) : Nat :=
  ((bs.getD 0 0 * 256 + bs.getD 1 0) * 256 + bs.getD 2 0) * 256 + bs.getD 3 0

/-- Reinterpretation of an unsigned 32-bit value as a signed
twos-complement `i32`. -/
def toI32 (u : Nat) : Int :=
  if u < 2 ^ 31 then (u : Int) else (u : Int) - 2 ^ 32

/-- `i32::from_be_bytes` on a 4-byte buffer. -/
def i32FromBe (bs : List Nat) : Int :=
  toI32 (u32FromBe bs)

/-- `i32::to_be_bytes`: the four big-endian bytes of the twos-complement
representation of `x`. -/
def i32ToBeBytes (x : Int) : List Nat :=
  let u := (x % 2 ^ 32).toNat
  [u / 2 ^ 24 % 256, u / 2 ^ 16 % 256, u / 2 ^ 8 % 256, u % 256]

/-- `Request::from(stream)`: reads the message size (4 bytes), the API
key (2 bytes), the API version (2 bytes) and the correlation ID
(4 bytes), each big-endian, via `read_exact`; any failed read is
propagated by `?` as `KafkaError::ReadError` and aborts the remaining
reads. On success the builder leaves `client_id` unset (`none`) and
`tag_buffer` at its default (`[]`). Returns the decoded request together
with the rest of the stream (the stream position after the reads). -/
def Request.fromStream (stream : List Nat) : Except KafkaError (Request × List Nat) :=
  match readExact 4 stream with
  | none => .error KafkaError.ReadError
  | some (size_bytes, s1) =>
    let message_size := i32FromBe size_bytes
    match readExact 2 s1 with
    | none => .error KafkaError.ReadError
    | some (api_key_bytes, s2) =>
      let request_api_key := u16FromBe api_key_bytes
      match readExact 2 s2 with
      | none => .error KafkaError.ReadError
      | some (api_version_bytes, s3) =>
        let request_api_version := u16FromBe api_version_bytes
        match readExact 4 s3 with
        | none => .error KafkaError.ReadError
        | some (correlation_bytes, s4) =>
          let correlation_id := i32FromBe correlation_bytes
          .ok ({ message_size := message_size,
                 request_api_key := request_api_key,
                 request_api_version := request_api_version,
                 correlation_id := correlation_id,
                 client_id := none,
                 tag_buffer := [] }, s4)

/-- The encode side of the header codec: `message_size.to_be_bytes()`
followed by `correlation_id.to_be_bytes()`, as handed to the two
`write_all` calls. -/
def encodeResponse (r : Response) : List Nat :=
  i32ToBeBytes r.message_size ++ i32ToBeBytes r.correlation_id

/-- Observable behaviour of the stream of one accepted connection: the
bytes it supplies for reading, and whether each of the two `write_all`
calls and the final `flush` succeed. -/
structure StreamBehavior where
  input : List Nat
  write1Ok : Bool
  write2Ok : Bool
  flushOk : Bool
deriving DecidableEq, Repr

/-- Outcome of handling one accepted connection. -/
inductive ConnResult where
  /-- `Request::from` failed: the error was logged
  (`error!("Could not parse request: ...")`) and the loop did `continue`
  to the next connection; no response bytes were written. -/
  | readFailed : ConnResult
  /-- A `write_all(..).unwrap()` failed: the process panics. The argument
  records the response bytes already handed to the stream. -/
  | panicked : List Nat → ConnResult
  /-- The request was answered. The arguments record the response bytes
  written, whether a flush error was logged, and the part of the input
  stream left unread. -/
  | closed : List Nat → Bool → List Nat → ConnResult
deriving DecidableEq, Repr

/-- Response bytes written on a connection, by outcome. -/
def ConnResult.written : ConnResult → List Nat
  | .readFailed => []
  | .panicked w => w
  | .closed w _ _ => w

/-- The body of the accept loop in `main` for one connection: decode one
request with `Request::from` (on failure log and `continue`); build a
`Response` with `message_size = 0` and the `correlation_id` of the
request; write its two big-endian fields with `write_all(..).unwrap()`
(a failed write panics); then `flush`, logging but swallowing a flush
error. -/
def handleConnection (s : StreamBehavior) : ConnResult :=
  match Request.fromStream s.input with
  | .error _ => .readFailed
  | .ok (request, rest) =>
    let response : Response :=
      { message_size := 0, correlation_id := request.correlation_id }
    let size_bytes := i32ToBeBytes response.message_size
    let correlation_bytes := i32ToBeBytes response.correlation_id
    if s.write1Ok = false then .panicked []
    else if s.write2Ok = false then .panicked size_bytes
    else .closed (size_bytes ++ correlation_bytes) (!s.flushOk) rest

/-- The accept loop of `main` over a sequence of accepted connections:
each connection is handled fully before the next is accepted; a panic
(failed `unwrap`) terminates the process, so no later connection is
served. -/
def serverLoop : List StreamBehavior → List ConnResult
  | [] => []
  | s :: rest =>
    match handleConnection s with
    | .panicked w => [.panicked w]
    | r => r :: serverLoop rest

/-- `readExact` succeeds exactly on streams long enough, consuming the
first `n` bytes. -/
theorem readExact_of_le {n : Nat} {s : List Nat} (h : n ≤ s.length) :
    readExact n s = some (s.take n, s.drop n) := by
  simp [readExact, h]

/-- `readExact` fails on streams that are too short. -/
theorem readExact_of_lt {n : Nat} {s : List Nat} (h : s.length < n) :
    readExact n s = none := by
  unfold readExact
  rw [if_neg (by omega)]

/-- Characterisation of `Request.fromStream` on any stream of at least
12 bytes, with the decoded fields given by take/drop slices. -/
theorem fromStream_spec (s : List Nat) (h : 12 ≤ s.length) :
    Request.fromStream s =
      .ok ({ message_size := i32FromBe (s.take 4),
             request_api_key := u16FromBe ((s.drop 4).take 2),
             request_api_version := u16FromBe ((s.drop 6).take 2),
             correlation_id := i32FromBe ((s.drop 8).take 4),
             client_id := none, tag_buffer := [] }, s.drop 12) := by
  simp only [Request.fromStream,
    readExact_of_le (show (4 : Nat) ≤ s.length by omega),
    readExact_of_le (show (2 : Nat) ≤ (s.drop 4).length by simp; omega),
    readExact_of_le (show (2 : Nat) ≤ ((s.drop 4).drop 2).length by simp; omega),
    readExact_of_le (show (4 : Nat) ≤ (((s.drop 4).drop 2).drop 2).length by simp; omega)]
  simp [List.drop_drop]

/-- Characterisation of `Request.fromStream` on a stream given by its
first 12 bytes and an arbitrary remainder. -/
theorem fromStream_cons (b0 b1 b2 b3 b4 b5 b6 b7 b8 b9 b10 b11 : Nat) (rest : List Nat) :
    Request.fromStream (b0::b1::b2::b3::b4::b5::b6::b7::b8::b9::b10::b11::rest) =
      .ok ({ message_size := toI32 (((b0 * 256 + b1) * 256 + b2) * 256 + b3),
             request_api_key := b4 * 256 + b5,
             request_api_version := b6 * 256 + b7,
             correlation_id := toI32 (((b8 * 256 + b9) * 256 + b10) * 256 + b11),
             client_id := none, tag_buffer := [] }, rest) := by
  rw [fromStream_spec _ (by simp)]
  simp [u16FromBe, u32FromBe, i32FromBe]

/-- `Request.fromStream` fails with `ReadError` on any stream of fewer
than 12 bytes, whichever of the four reads runs out of bytes. -/
theorem fromStream_short (s : List Nat) (h : s.length < 12) :
    Request.fromStream s = .error KafkaError.ReadError := by
  by_cases h4 : 4 ≤ s.length
  · by_cases h6 : 6 ≤ s.length
    · by_cases h8 : 8 ≤ s.length
      · simp only [Request.fromStream, readExact_of_le h4,
          readExact_of_le (show 2 ≤ (s.drop 4).length by simp; omega),
          readExact_of_le (show 2 ≤ ((s.drop 4).drop 2).length by simp; omega),
          readExact_of_lt (show (((s.drop 4).drop 2).drop 2).length < 4 by simp; omega)]
      · simp only [Request.fromStream, readExact_of_le h4,
          readExact_of_le (show 2 ≤ (s.drop 4).length by simp; omega),
          readExact_of_lt (show ((s.drop 4).drop 2).length < 2 by simp; omega)]
    · simp only [Request.fromStream, readExact_of_le h4,
        readExact_of_lt (show (s.drop 4).length < 2 by simp; omega)]
  · simp only [Request.fromStream, readExact_of_lt (show s.length < 4 by omega)]

/-- Decoding the big-endian encoding of any `i32` value recovers the
value. -/
theorem i32FromBe_i32ToBeBytes (c : Int) (h1 : -2 ^ 31 ≤ c) (h2 : c < 2 ^ 31) :
    i32FromBe (i32ToBeBytes c) = c := by
  unfold i32FromBe i32ToBeBytes u32FromBe toI32
  simp only [List.getD_cons_zero, List.getD_cons_succ]
  norm_num
  split <;> omega

/-- Encoding the `i32` value decoded from four bytes reproduces those
bytes. -/
theorem i32ToBeBytes_toI32 (b8 b9 b10 b11 : Nat)
    (h8 : b8 < 256) (h9 : b9 < 256) (h10 : b10 < 256) (h11 : b11 < 256) :
    i32ToBeBytes (toI32 (((b8 * 256 + b9) * 256 + b10) * 256 + b11)) = [b8, b9, b10, b11] := by
  unfold i32ToBeBytes toI32
  split <;> simp only [List.cons.injEq, and_true] <;> norm_num <;>
    refine ⟨by omega, by omega, by omega, by omega⟩

/-- The response `message_size` field 0 encodes to four zero bytes. -/
theorem i32ToBeBytes_zero : i32ToBeBytes 0 = [0, 0, 0, 0] := by decide

/-- Claim C1 as stated is false: on a connection whose stream carries
two well-formed 12-byte request headers (correlation ids 7 and 9), the
handler answers only the first header and leaves the second one unread;
the written bytes are the single 8-byte response, not the concatenation
of both responses. -/
theorem single_request_counterexample :
    handleConnection
        ⟨[0, 0, 0, 8, 0, 18, 0, 4, 0, 0, 0, 7] ++ [0, 0, 0, 8, 0, 18, 0, 4, 0, 0, 0, 9],
         true, true, true⟩ =
      ConnResult.closed [0, 0, 0, 0, 0, 0, 0, 7] false [0, 0, 0, 8, 0, 18, 0, 4, 0, 0, 0, 9] ∧
    (handleConnection
        ⟨[0, 0, 0, 8, 0, 18, 0, 4, 0, 0, 0, 7] ++ [0, 0, 0, 8, 0, 18, 0, 4, 0, 0, 0, 9],
         true, true, true⟩).written ≠
      [0, 0, 0, 0, 0, 0, 0, 7] ++ [0, 0, 0, 0, 0, 0, 0, 9] := by
  constructor
  · decide
  · decide

/-- Claim C1 (amended): after successfully encoding and flushing the
response, the handler does not loop back on the same connection; exactly
one request header is decoded and answered per connection, and the rest
of the stream — including any further well-formed headers — is left
unread when the handler returns to the accept loop. -/
theorem single_request_per_connection
    (b0 b1 b2 b3 b4 b5 b6 b7 b8 b9 b10 b11 : Nat) (rest : List Nat) (f : Bool) :
    handleConnection ⟨b0::b1::b2::b3::b4::b5::b6::b7::b8::b9::b10::b11::rest, true, true, f⟩ =
      ConnResult.closed
        ([0, 0, 0, 0] ++ i32ToBeBytes (toI32 (((b8 * 256 + b9) * 256 + b10) * 256 + b11)))
        (!f) rest := by
  simp [handleConnection, fromStream_cons, i32ToBeBytes_zero]

/-- Claim C2 as stated is false: when the first `write_all` fails on a
connection that sent a well-formed header, the `unwrap` panics and the
process terminates — the next pending connection is never served, so
the write error is not recovered at the connection boundary. -/
theorem write_failure_counterexample :
    serverLoop [⟨[0, 0, 0, 8, 0, 18, 0, 4, 0, 0, 0, 7], false, true, true⟩,
                ⟨[0, 0, 0, 8, 0, 18, 0, 4, 0, 0, 0, 9], true, true, true⟩] =
      [ConnResult.panicked []] ∧
    (serverLoop [⟨[0, 0, 0, 8, 0, 18, 0, 4, 0, 0, 0, 7], false, true, true⟩,
                 ⟨[0, 0, 0, 8, 0, 18, 0, 4, 0, 0, 0, 9], true, true, true⟩]).length ≠ 2 := by
  constructor
  · decide
  · decide

/-- Claim C2 (amended): read failures are caught and logged at the
connection boundary and the accept loop continues with the remaining
connections; a connection answered successfully (including one whose
flush failed and was merely logged) also lets the loop continue; but a
failure of either `write_all` is not caught: the process panics — with
no response bytes handed over when the first write fails, and with the
4 zero size bytes already handed over when the second write fails — and
no later connection is served. -/
theorem error_boundary_amended :
    (∀ (s : StreamBehavior) (rest : List StreamBehavior),
        Request.fromStream s.input = .error KafkaError.ReadError →
        serverLoop (s :: rest) = ConnResult.readFailed :: serverLoop rest) ∧
    (∀ (s : StreamBehavior) (rest : List StreamBehavior) (w u : List Nat) (fl : Bool),
        handleConnection s = ConnResult.closed w fl u →
        serverLoop (s :: rest) = ConnResult.closed w fl u :: serverLoop rest) ∧
    (∀ (s : StreamBehavior) (rest : List StreamBehavior),
        12 ≤ s.input.length → s.write1Ok = false →
        serverLoop (s :: rest) = [ConnResult.panicked []]) ∧
    (∀ (s : StreamBehavior) (rest : List StreamBehavior),
        12 ≤ s.input.length → s.write1Ok = true → s.write2Ok = false →
        serverLoop (s :: rest) = [ConnResult.panicked [0, 0, 0, 0]]) := by
  refine ⟨?_, ?_, ?_, ?_⟩
  · intro s rest h
    simp [serverLoop, handleConnection, h]
  · intro s rest w u fl h
    simp [serverLoop, h]
  · intro s rest h hw
    simp [serverLoop, handleConnection, fromStream_spec s.input h, hw]
  · intro s rest h hw1 hw2
    simp [serverLoop, handleConnection, fromStream_spec s.input h, hw1, hw2,
      i32ToBeBytes_zero]

/-- Witness for the amended claim C2 at concrete connections: a 3-byte
stream is logged as a read failure and the loop goes on; a good request
whose flush fails is answered with the flush error logged; a good
request whose first write fails panics the process with nothing
written, dropping the second pending connection; and one whose second
write fails panics the process with the 4 zero size bytes written,
likewise dropping the second pending connection. -/
theorem error_boundary_amended_witness :
    serverLoop [⟨[0, 0, 0], true, true, true⟩] = [ConnResult.readFailed] ∧
    serverLoop [⟨[0, 0, 0, 8, 0, 18, 0, 4, 0, 0, 0, 7], true, true, false⟩] =
      [ConnResult.closed [0, 0, 0, 0, 0, 0, 0, 7] true []] ∧
    serverLoop [⟨[0, 0, 0, 8, 0, 18, 0, 4, 0, 0, 0, 7], false, true, true⟩,
                ⟨[0, 0, 0, 8, 0, 18, 0, 4, 0, 0, 0, 9], true, true, true⟩] =
      [ConnResult.panicked []] ∧
    serverLoop [⟨[0, 0, 0, 8, 0, 18, 0, 4, 0, 0, 0, 7], true, false, true⟩,
                ⟨[0, 0, 0, 8, 0, 18, 0, 4, 0, 0, 0, 9], true, true, true⟩] =
      [ConnResult.panicked [0, 0, 0, 0]] :=
  ⟨error_boundary_amended.1 ⟨[0, 0, 0], true, true, true⟩ [] rfl,
   error_boundary_amended.2.1 ⟨[0, 0, 0, 8, 0, 18, 0, 4, 0, 0, 0, 7], true, true, false⟩ []
     [0, 0, 0, 0, 0, 0, 0, 7] [] true (by decide),
   error_boundary_amended.2.2.1 ⟨[0, 0, 0, 8, 0, 18, 0, 4, 0, 0, 0, 7], false, true, true⟩
     [⟨[0, 0, 0, 8, 0, 18, 0, 4, 0, 0, 0, 9], true, true, true⟩] (by decide) rfl,
   error_boundary_amended.2.2.2 ⟨[0, 0, 0, 8, 0, 18, 0, 4, 0, 0, 0, 7], true, false, true⟩
     [⟨[0, 0, 0, 8, 0, 18, 0, 4, 0, 0, 0, 9], true, true, true⟩] (by decide) rfl rfl⟩

/-- Claim C3: for every successfully decoded 12-byte header the emitted
response is exactly 8 bytes — 4 zero bytes followed by the big-endian
correlation id bytes of the request, echoed verbatim — and at the level
of values, decode of encode is the identity on every `i32`, including
the extreme values. -/
theorem response_shape_and_echo :
    (∀ b0 b1 b2 b3 b4 b5 b6 b7 b8 b9 b10 b11 : Nat, ∀ rest : List Nat, ∀ f : Bool,
        b8 < 256 → b9 < 256 → b10 < 256 → b11 < 256 →
        handleConnection
            ⟨b0::b1::b2::b3::b4::b5::b6::b7::b8::b9::b10::b11::rest, true, true, f⟩ =
          ConnResult.closed ([0, 0, 0, 0] ++ [b8, b9, b10, b11]) (!f) rest ∧
        ([0, 0, 0, 0] ++ [b8, b9, b10, b11]).length = 8) ∧
    (∀ c : Int, -2 ^ 31 ≤ c → c < 2 ^ 31 → i32FromBe (i32ToBeBytes c) = c) := by
  constructor
  · intro b0 b1 b2 b3 b4 b5 b6 b7 b8 b9 b10 b11 rest f h8 h9 h10 h11
    refine ⟨?_, by simp⟩
    simp [handleConnection, fromStream_cons, i32ToBeBytes_zero,
      i32ToBeBytes_toI32 b8 b9 b10 b11 h8 h9 h10 h11]
  · exact fun c h1 h2 => i32FromBe_i32ToBeBytes c h1 h2

/-- Witness for claim C3: a request with correlation bytes FF FF FF FF,
and the round trip at INT32_MIN. -/
theorem response_shape_and_echo_witness :
    (handleConnection ⟨[0, 0, 0, 8, 0, 18, 0, 4, 255, 255, 255, 255], true, true, true⟩ =
        ConnResult.closed ([0, 0, 0, 0] ++ [255, 255, 255, 255]) (!true) [] ∧
      ([0, 0, 0, 0] ++ [255, 255, 255, 255]).length = 8) ∧
    i32FromBe (i32ToBeBytes (-2 ^ 31)) = -2 ^ 31 :=
  ⟨response_shape_and_echo.1 0 0 0 8 0 18 0 4 255 255 255 255 [] true
      (by decide) (by decide) (by decide) (by decide),
   response_shape_and_echo.2 (-2 ^ 31) (by norm_num) (by norm_num)⟩

/-- Claim C4: on any stream of at least 12 bytes, decode reads exactly
the 12-byte prefix in the order message_size (4 bytes), api key
(2 bytes), api version (2 bytes), correlation id (4 bytes), each
big-endian; the returned header has `client_id` absent and `tag_buffer`
empty, and the stream position afterwards is exactly 12 bytes in — no
byte beyond the prefix is consumed. -/
theorem decode_contract (s : List Nat) (h : 12 ≤ s.length) :
    Request.fromStream s =
      .ok ({ message_size := i32FromBe (s.take 4),
             request_api_key := u16FromBe ((s.drop 4).take 2),
             request_api_version := u16FromBe ((s.drop 6).take 2),
             correlation_id := i32FromBe ((s.drop 8).take 4),
             client_id := none, tag_buffer := [] }, s.drop 12) :=
  fromStream_spec s h

/-- Witness for claim C4 on a 13-byte stream: the trailing body byte 99
is left unconsumed. -/
theorem decode_contract_witness :
    Request.fromStream [0, 0, 0, 8, 0, 18, 0, 4, 0, 0, 0, 7, 99] =
      .ok ({ message_size := 8, request_api_key := 18,
             request_api_version := 4, correlation_id := 7,
             client_id := none, tag_buffer := [] }, [99]) := by
  have := decode_contract [0, 0, 0, 8, 0, 18, 0, 4, 0, 0, 0, 7, 99] (by decide)
  simpa [u16FromBe, u32FromBe, i32FromBe, toI32] using this

/-- Claim C5: on any stream of fewer than 12 bytes, decode fails with
the `ReadError` variant (the embedding of `ReadFailure`); the failing
read short-circuits the later reads and no partially populated header is
returned — the result is the bare error. -/
theorem short_read_fails (s : List Nat) (h : s.length < 12) :
    Request.fromStream s = .error KafkaError.ReadError :=
  fromStream_short s h

/-- Witness for claim C5 at a 6-byte stream. -/
theorem short_read_fails_witness :
    Request.fromStream [0, 0, 0, 8, 0, 18] = .error KafkaError.ReadError :=
  short_read_fails [0, 0, 0, 8, 0, 18] (by decide)

/-- Claim C6: on any connection whose decode fails, the handler logs the
error and abandons the connection: the outcome is `readFailed` (logged,
`continue` to the next connection), no response bytes are written, and
no further request is decoded from the remaining data. -/
theorem decode_failure_abandons (s : StreamBehavior) (e : KafkaError)
    (h : Request.fromStream s.input = .error e) :
    handleConnection s = ConnResult.readFailed ∧
    (handleConnection s).written = [] := by
  refine ⟨?_, ?_⟩ <;> simp [handleConnection, h, ConnResult.written]

/-- Witness for claim C6 at the 6-byte connection of the spec scenario:
the stream holds more than zero bytes but fewer than a header. -/
theorem decode_failure_abandons_witness :
    handleConnection ⟨[0, 0, 0, 8, 0, 18], true, true, true⟩ = ConnResult.readFailed ∧
    (handleConnection ⟨[0, 0, 0, 8, 0, 18], true, true, true⟩).written = [] :=
  decode_failure_abandons ⟨[0, 0, 0, 8, 0, 18], true, true, true⟩ KafkaError.ReadError rfl

/-- Claim C7: on the concrete input 00 00 00 08 00 12 00 04 00 00 00 07
decode yields message_size 8, api key 18, api version 4 and correlation
id 7, and the server emits exactly the 8 bytes
00 00 00 00 00 00 00 07. -/
theorem end_to_end_scenario :
    Request.fromStream [0, 0, 0, 8, 0, 18, 0, 4, 0, 0, 0, 7] =
      .ok ({ message_size := 8, request_api_key := 18, request_api_version := 4,
             correlation_id := 7, client_id := none, tag_buffer := [] }, []) ∧
    handleConnection ⟨[0, 0, 0, 8, 0, 18, 0, 4, 0, 0, 0, 7], true, true, true⟩ =
      ConnResult.closed [0, 0, 0, 0, 0, 0, 0, 7] false [] :=
  ⟨rfl, by decide⟩

/-- Claim C8: the codec is deterministic and stateless — two decode runs
on streams sharing the same 12-byte prefix produce the same header, each
affecting its stream only by consuming those 12 bytes, and encode emits
equal bytes on responses with equal fields. -/
theorem codec_deterministic :
    (∀ b0 b1 b2 b3 b4 b5 b6 b7 b8 b9 b10 b11 : Nat, ∀ rest1 rest2 : List Nat,
        ∃ request : Request,
          Request.fromStream (b0::b1::b2::b3::b4::b5::b6::b7::b8::b9::b10::b11::rest1) =
            .ok (request, rest1) ∧
          Request.fromStream (b0::b1::b2::b3::b4::b5::b6::b7::b8::b9::b10::b11::rest2) =
            .ok (request, rest2)) ∧
    (∀ r1 r2 : Response, r1.message_size = r2.message_size →
        r1.correlation_id = r2.correlation_id → encodeResponse r1 = encodeResponse r2) := by
  constructor
  · intro b0 b1 b2 b3 b4 b5 b6 b7 b8 b9 b10 b11 rest1 rest2
    exact ⟨_, fromStream_cons b0 b1 b2 b3 b4 b5 b6 b7 b8 b9 b10 b11 rest1,
              fromStream_cons b0 b1 b2 b3 b4 b5 b6 b7 b8 b9 b10 b11 rest2⟩
  · intro r1 r2 h1 h2
    simp [encodeResponse, h1, h2]

/-- Witness for claim C8: two streams equal on the header and differing
in the byte after it decode to the same request. -/
theorem codec_deterministic_witness :
    (∃ request : Request,
        Request.fromStream [0, 0, 0, 8, 0, 18, 0, 4, 0, 0, 0, 7, 1] = .ok (request, [1]) ∧
        Request.fromStream [0, 0, 0, 8, 0, 18, 0, 4, 0, 0, 0, 7, 2] = .ok (request, [2])) ∧
    encodeResponse ⟨0, 7⟩ = encodeResponse ⟨0, 7⟩ :=
  ⟨codec_deterministic.1 0 0 0 8 0 18 0 4 0 0 0 7 [1] [2],
   codec_deterministic.2 ⟨0, 7⟩ ⟨0, 7⟩ rfl rfl⟩

/-- Claim C9: decode succeeds on every 12-byte prefix whatsoever —
message_size, api key and api version are never validated — and the
written response depends only on the correlation id bytes 8..11: two
accepted requests agreeing there but differing arbitrarily in bytes 0..7
receive identical responses. -/
theorem no_validation_and_cid_only :
    (∀ b0 b1 b2 b3 b4 b5 b6 b7 b8 b9 b10 b11 : Nat, ∀ rest : List Nat,
        ∃ request : Request,
          Request.fromStream (b0::b1::b2::b3::b4::b5::b6::b7::b8::b9::b10::b11::rest) =
            .ok (request, rest)) ∧
    (∀ b0 b1 b2 b3 b4 b5 b6 b7 a0 a1 a2 a3 a4 a5 a6 a7 b8 b9 b10 b11 : Nat,
        ∀ rest1 rest2 : List Nat, ∀ f1 f2 : Bool,
        (handleConnection
            ⟨b0::b1::b2::b3::b4::b5::b6::b7::b8::b9::b10::b11::rest1, true, true, f1⟩).written =
        (handleConnection
            ⟨a0::a1::a2::a3::a4::a5::a6::a7::b8::b9::b10::b11::rest2, true, true, f2⟩).written) := by
  constructor
  · intro b0 b1 b2 b3 b4 b5 b6 b7 b8 b9 b10 b11 rest
    exact ⟨_, fromStream_cons b0 b1 b2 b3 b4 b5 b6 b7 b8 b9 b10 b11 rest⟩
  · intro b0 b1 b2 b3 b4 b5 b6 b7 a0 a1 a2 a3 a4 a5 a6 a7 b8 b9 b10 b11 rest1 rest2 f1 f2
    simp [handleConnection, fromStream_cons, ConnResult.written]

/-- Claim C10: when both response writes succeed but the flush fails,
the handler only logs the flush error — the flush-error flag of the
outcome is set, the 8 response bytes were already handed to the stream,
the process does not panic, and the accept loop proceeds to the
remaining connections. -/
theorem flush_error_only_logged
    (b0 b1 b2 b3 b4 b5 b6 b7 b8 b9 b10 b11 : Nat) (rest : List Nat)
    (others : List StreamBehavior) :
    serverLoop (⟨b0::b1::b2::b3::b4::b5::b6::b7::b8::b9::b10::b11::rest, true, true, false⟩
        :: others) =
      ConnResult.closed
        ([0, 0, 0, 0] ++ i32ToBeBytes (toI32 (((b8 * 256 + b9) * 256 + b10) * 256 + b11)))
        true rest :: serverLoop others := by
  simp [serverLoop, handleConnection, fromStream_cons, i32ToBeBytes_zero]
